import Mathlib

/-!
Shallow embedding of the persistence and association-management layer of the
medi-bridge-api repository (app/services/sqlite_crud.py, app/models/sqlite_db.py).

Tables are modelled as lists of row structures in insertion order; the SQLite
autoincrement primary keys are modelled with explicit next-id counters on the
database state.  Timestamps are natural numbers supplied by the caller (the
`now` argument stands for `datetime.utcnow()`).  Operations that commit or roll
back a transaction return an `Except` outcome paired with the resulting
database state: on a rollback the state component is the unchanged input state.
-/

namespace MediBridge

/-- Error kinds raised by the storage layer: `SQLiteServiceError` and
`SQLiteConnectionError` from app/core/exceptions.py. -/
inductive DBError where
  | serviceError (msg : String)
  | connectionError (msg : String)
deriving DecidableEq, Repr

deriving instance DecidableEq for Except

/-- Row of the `conditions` table (model `Condition` in app/models/sqlite_db.py). -/
structure ConditionRow where
  id : Nat
  name : String
  full_description : String
  summary : String
  created_at : Nat
  updated_at : Nat
deriving DecidableEq, Repr

/-- Row of the `exclusion_methods` table (model `ExclusionMethod`). -/
structure ExclusionMethodRow where
  id : Nat
  name : String
  description : String
  procedure_steps : Option String
  created_at : Nat
  updated_at : Nat
deriving DecidableEq, Repr

/-- Row of the `treatment_plans` table (model `TreatmentPlan`). -/
structure TreatmentPlanRow where
  id : Nat
  name : String
  description : String
  medications : Option String
  procedures : Option String
  factors : Option String
  contraindications : Option String
  created_at : Nat
  updated_at : Nat
deriving DecidableEq, Repr

/-- Row of the `condition_exclusion_methods` junction table
(model `ConditionExclusionMethod`; no unique constraint on the pair). -/
structure ConditionExclusionMethodRow where
  id : Nat
  condition_id : Nat
  exclusion_method_id : Nat
  created_at : Nat
deriving DecidableEq, Repr

/-- Row of the `condition_treatment_plans` junction table
(model `ConditionTreatmentPlan`; no unique constraint on the pair). -/
structure ConditionTreatmentPlanRow where
  id : Nat
  condition_id : Nat
  treatment_plan_id : Nat
  is_primary : Bool
  priority : Int
  notes : Option String
  created_at : Nat
deriving DecidableEq, Repr

/-- Modelled from the spec: the `Conversation` ORM model is imported by the
services from app.models.sqlite_db but is not defined in the sources provided;
fields follow spec section 3 (title, optional department, optional patient and
user references, start time, serialized progress marker, timestamps) and the
pydantic schemas in app/schemas/sqlite.py. -/
structure ConversationRow where
  id : Nat
  title : String
  department : Option String
  user_id : Option Nat
  patient_id : Option Nat
  progress : Option String
  started_at : Nat
  created_at : Nat
  updated_at : Nat
deriving DecidableEq, Repr

/-- Modelled from the spec: the `Message` ORM model is absent from the provided
sources; fields follow spec section 3 (conversation ref, content, optional role
tag, sent time, creation timestamp) and app/schemas/sqlite.py. -/
structure MessageRow where
  id : Nat
  conversation_id : Nat
  content : String
  role : Option String
  sent_at : Nat
  created_at : Nat
deriving DecidableEq, Repr

/-- Modelled from the spec: the `SympganDisease` ORM model is absent from the
provided sources; fields follow spec section 3 (external unique code CUI, name,
optional alias, definition and external-id list) and app/schemas/sqlite.py. -/
structure SympganDiseaseRow where
  id : Nat
  cui : String
  name : String
  alias_ : Option String
  definition : Option String
  external_ids : Option String
  created_at : Nat
  updated_at : Nat
deriving DecidableEq, Repr

/-- Modelled from the spec: the `SympganSymptom` ORM model is absent from the
provided sources; fields follow spec section 3 and app/schemas/sqlite.py. -/
structure SympganSymptomRow where
  id : Nat
  cui : String
  name : String
  alias_ : Option String
  definition : Option String
  external_ids : Option String
  created_at : Nat
  updated_at : Nat
deriving DecidableEq, Repr

/-- Modelled from the spec: the `SympganDiseaseSymptomAssociation` ORM model is
absent from the provided sources; fields follow spec section 3 (disease ref,
symptom ref, optional provenance tag, creation timestamp) and
app/schemas/sqlite.py. -/
structure SympganDiseaseSymptomAssociationRow where
  id : Nat
  disease_id : Nat
  symptom_id : Nat
  source : Option String
  created_at : Nat
deriving DecidableEq, Repr

/-- The whole relational store: one list per table, rows kept in insertion
order, plus the autoincrement next-id counters of the tables into which the
embedded operations insert. -/
structure DB where
  conditions : List ConditionRow
  exclusion_methods : List ExclusionMethodRow
  treatment_plans : List TreatmentPlanRow
  condition_exclusion_methods : List ConditionExclusionMethodRow
  condition_treatment_plans : List ConditionTreatmentPlanRow
  conversations : List ConversationRow
  messages : List MessageRow
  sympgan_diseases : List SympganDiseaseRow
  sympgan_symptoms : List SympganSymptomRow
  sympgan_disease_symptom_associations : List SympganDiseaseSymptomAssociationRow
  next_cem_id : Nat
  next_ctp_id : Nat
  next_message_id : Nat
  next_sympgan_assoc_id : Nat
deriving DecidableEq, Repr

/-- Embeds `ConditionService.get`: `select(Condition).where(Condition.id == condition_id)`
followed by `.scalars().first()` — the first row of the table with that id. -/
def ConditionService.get (db : DB) (condition_id : Nat) : Option ConditionRow :=
  db.conditions.find? (fun r => r.id == condition_id)

/-- Embeds `ConditionService.list`: counts the table, then selects with
`offset(skip).limit(limit).order_by(Condition.id)` — SQL orders first, then
applies offset and limit. -/
def ConditionService.list (db : DB) (skip limit : Nat) :
    Nat × List ConditionRow :=
  let total := db.conditions.length
  let sorted := db.conditions.insertionSort (fun a b => a.id ≤ b.id)
  (total, (sorted.drop skip).take limit)

/-- Pydantic `ConditionUpdate` (app/schemas/sqlite.py): each field is either
supplied or left unset; `model_dump(exclude_unset=True)` yields exactly the
supplied ones.  The three columns are NOT NULL, so a supplied value is a
string (an explicit null would fail the schema-level constraint and roll
back, a case outside the partial-update contract being verified). -/
structure ConditionUpdate where
  name : Option String
  full_description : Option String
  summary : Option String
deriving DecidableEq, Repr

/-- The `setattr` loop of a condition update: each supplied field replaces
the stored value, every unsupplied field keeps it. -/
def conditionPayloadUpdate (c : ConditionRow) (u : ConditionUpdate) : ConditionRow :=
  { c with
    name := u.name.getD c.name
    full_description := u.full_description.getD c.full_description
    summary := u.summary.getD c.summary }

/-- Applying `ConditionUpdate` to a row: `setattr` for each supplied field,
then commit.  The SQLAlchemy flush emits an UPDATE only when some attribute
value actually changed, and only then does the `onupdate` hook refresh
`updated_at`. -/
def applyConditionUpdate (c : ConditionRow) (u : ConditionUpdate) (now : Nat) :
    ConditionRow :=
  if conditionPayloadUpdate c u = c then conditionPayloadUpdate c u
  else { conditionPayloadUpdate c u with updated_at := now }

/-- Embeds `ConditionService.update`: fetch by id; absent ids yield `None` with no
write; otherwise the supplied fields are replaced on the row and the
transaction commits. -/
def ConditionService.update (db : DB) (condition_id : Nat)
    (data : ConditionUpdate) (now : Nat) :
    Except DBError (Option ConditionRow) × DB :=
  match ConditionService.get db condition_id with
  | none => (.ok none, db)
  | some c =>
    let c1 := applyConditionUpdate c data now
    let db1 : DB :=
      { db with
        conditions := db.conditions.map
          (fun r => if r.id == condition_id then applyConditionUpdate r data now else r) }
    (.ok (some c1), db1)

/-- Embeds `ConditionService.delete`: fetch by id; `session.delete` cascades to the
junction rows of both association tables (relationship cascade
"all, delete-orphan" on `Condition.exclusion_methods` and
`Condition.treatment_plans`, plus `ondelete="CASCADE"` on their foreign
keys), leaving the `exclusion_methods` and `treatment_plans` tables alone. -/
def ConditionService.delete (db : DB) (condition_id : Nat) :
    Except DBError Bool × DB :=
  match ConditionService.get db condition_id with
  | none => (.ok false, db)
  | some _ =>
    (.ok true,
      { db with
        conditions := db.conditions.filter (fun r => r.id != condition_id)
        condition_exclusion_methods :=
          db.condition_exclusion_methods.filter (fun r => r.condition_id != condition_id)
        condition_treatment_plans :=
          db.condition_treatment_plans.filter (fun r => r.condition_id != condition_id) })

/-- Embeds `ExclusionMethodService.get`: first row of `exclusion_methods` with the id. -/
def ExclusionMethodService.get (db : DB) (method_id : Nat) : Option ExclusionMethodRow :=
  db.exclusion_methods.find? (fun r => r.id == method_id)

/-- Embeds `TreatmentPlanService.get`: first row of `treatment_plans` with the id. -/
def TreatmentPlanService.get (db : DB) (plan_id : Nat) : Option TreatmentPlanRow :=
  db.treatment_plans.find? (fun r => r.id == plan_id)

/-- Payload of `ConditionExclusionMethodCreate`. -/
structure ConditionExclusionMethodCreate where
  condition_id : Nat
  exclusion_method_id : Nat
deriving DecidableEq, Repr

/-- Embeds `ConditionExclusionMethodService.add_association`: verify both endpoints
exist (error otherwise), reject an existing (condition, method) pair with
"Association already exists", else insert a fresh junction row. -/
def ConditionExclusionMethodService.add_association (db : DB)
    (data : ConditionExclusionMethodCreate) (now : Nat) :
    Except DBError ConditionExclusionMethodRow × DB :=
  match ConditionService.get db data.condition_id with
  | none =>
    (.error (.serviceError
      ("Condition with ID " ++ toString data.condition_id ++ " not found")), db)
  | some _ =>
  match ExclusionMethodService.get db data.exclusion_method_id with
  | none =>
    (.error (.serviceError
      ("Exclusion method with ID " ++ toString data.exclusion_method_id ++ " not found")), db)
  | some _ =>
  match db.condition_exclusion_methods.find?
      (fun r => r.condition_id == data.condition_id &&
                r.exclusion_method_id == data.exclusion_method_id) with
  | some _ => (.error (.serviceError "Association already exists"), db)
  | none =>
    let row : ConditionExclusionMethodRow :=
      { id := db.next_cem_id
        condition_id := data.condition_id
        exclusion_method_id := data.exclusion_method_id
        created_at := now }
    (.ok row,
      { db with
        condition_exclusion_methods := db.condition_exclusion_methods ++ [row]
        next_cem_id := db.next_cem_id + 1 })

/-- Embeds `ConditionExclusionMethodService.get_condition_exclusion_methods`:
`select(ExclusionMethod).join(ConditionExclusionMethod).where(condition_id == cid)`
with NO ordering clause.  The model realizes the storage-engine default
order for this unordered join as junction-table insertion order (SQLite scans
the junction table for the condition and resolves each method by rowid). -/
def ConditionExclusionMethodService.get_condition_exclusion_methods
    (db : DB) (condition_id : Nat) : List ExclusionMethodRow :=
  (db.condition_exclusion_methods.filter (fun r => r.condition_id == condition_id)).filterMap
    (fun r => db.exclusion_methods.find? (fun m => m.id == r.exclusion_method_id))

/-- Payload of `ConditionTreatmentPlanCreate` (`is_primary` defaults to
false, `priority` to 0, `notes` to null). -/
structure ConditionTreatmentPlanCreate where
  condition_id : Nat
  treatment_plan_id : Nat
  is_primary : Bool
  priority : Int
  notes : Option String
deriving DecidableEq, Repr

/-- Embeds `ConditionTreatmentPlanService.add_association`: verifies both endpoints
exist, then inserts — there is NO duplicate-pair check in this family (and no
unique constraint on the pair in the schema), so a repeated pair inserts a
second junction row. -/
def ConditionTreatmentPlanService.add_association (db : DB)
    (data : ConditionTreatmentPlanCreate) (now : Nat) :
    Except DBError ConditionTreatmentPlanRow × DB :=
  match ConditionService.get db data.condition_id with
  | none =>
    (.error (.serviceError
      ("Condition with ID " ++ toString data.condition_id ++ " not found")), db)
  | some _ =>
  match TreatmentPlanService.get db data.treatment_plan_id with
  | none =>
    (.error (.serviceError
      ("Treatment plan with ID " ++ toString data.treatment_plan_id ++ " not found")), db)
  | some _ =>
    let row : ConditionTreatmentPlanRow :=
      { id := db.next_ctp_id
        condition_id := data.condition_id
        treatment_plan_id := data.treatment_plan_id
        is_primary := data.is_primary
        priority := data.priority
        notes := data.notes
        created_at := now }
    (.ok row,
      { db with
        condition_treatment_plans := db.condition_treatment_plans ++ [row]
        next_ctp_id := db.next_ctp_id + 1 })

/-- Pydantic `ConditionTreatmentPlanUpdate`: `notes` is a nullable column, so
a supplied value may itself be null (`Option (Option String)` distinguishes
"not supplied" from "supplied null"). -/
structure ConditionTreatmentPlanUpdate where
  is_primary : Option Bool
  priority : Option Int
  notes : Option (Option String)
deriving DecidableEq, Repr

/-- Applying `ConditionTreatmentPlanUpdate`: `setattr` for each supplied
field; this junction row carries no `updated_at` column. -/
def applyCtpUpdate (a : ConditionTreatmentPlanRow)
    (u : ConditionTreatmentPlanUpdate) : ConditionTreatmentPlanRow :=
  { a with
    is_primary := u.is_primary.getD a.is_primary
    priority := u.priority.getD a.priority
    notes := u.notes.getD a.notes }

/-- Embeds `ConditionTreatmentPlanService.update_association`: fetch the junction row
by its own id; absent ids yield `None` with no write; otherwise replace the
supplied payload fields and commit. -/
def ConditionTreatmentPlanService.update_association (db : DB)
    (association_id : Nat) (data : ConditionTreatmentPlanUpdate) :
    Except DBError (Option ConditionTreatmentPlanRow) × DB :=
  match db.condition_treatment_plans.find? (fun r => r.id == association_id) with
  | none => (.ok none, db)
  | some a =>
    let a1 := applyCtpUpdate a data
    (.ok (some a1),
      { db with
        condition_treatment_plans := db.condition_treatment_plans.map
          (fun r => if r.id == association_id then applyCtpUpdate r data else r) })

/-- The ORDER BY relation of `get_condition_treatment_plans`: row `a` sorts at
or before row `b` when `a.priority ≥ b.priority`. -/
def ctpPriorityGE (a b : ConditionTreatmentPlanRow) : Prop :=
  b.priority ≤ a.priority

instance : DecidableRel ctpPriorityGE :=
  fun a b => inferInstanceAs (Decidable (b.priority ≤ a.priority))

instance : IsTotal ConditionTreatmentPlanRow ctpPriorityGE :=
  ⟨fun a b => (le_total b.priority a.priority).imp id id⟩

instance : IsTrans ConditionTreatmentPlanRow ctpPriorityGE :=
  ⟨fun _ _ _ hab hbc => le_trans hbc hab⟩

/-- Embeds `ConditionTreatmentPlanService.get_condition_treatment_plans`:
`select(TreatmentPlan).join(ConditionTreatmentPlan).where(condition_id == cid)
.order_by(ConditionTreatmentPlan.priority.desc())`.  The model sorts the
matching junction rows by descending priority (stable sort standing for the
storage-engine ORDER BY) and joins each to its plan. -/
def ConditionTreatmentPlanService.get_condition_treatment_plans
    (db : DB) (condition_id : Nat) : List TreatmentPlanRow :=
  let rows := db.condition_treatment_plans.filter (fun r => r.condition_id == condition_id)
  let sorted := rows.insertionSort ctpPriorityGE
  sorted.filterMap (fun r => db.treatment_plans.find? (fun p => p.id == r.treatment_plan_id))

/-- Embeds `ConversationService.get`: first row of `conversations` with the id. -/
def ConversationService.get (db : DB) (conversation_id : Nat) : Option ConversationRow :=
  db.conversations.find? (fun r => r.id == conversation_id)

/-- Payload of `MessageCreate`. -/
structure MessageCreate where
  conversation_id : Nat
  content : String
  role : Option String
deriving DecidableEq, Repr

/-- Embeds `MessageService.create`: verifies the referenced conversation exists and
raises "Conversation with ID ... not found" before any row is constructed;
otherwise inserts the message. -/
def MessageService.create (db : DB) (data : MessageCreate) (now : Nat) :
    Except DBError MessageRow × DB :=
  match ConversationService.get db data.conversation_id with
  | none =>
    (.error (.serviceError
      ("Conversation with ID " ++ toString data.conversation_id ++ " not found")), db)
  | some _ =>
    let row : MessageRow :=
      { id := db.next_message_id
        conversation_id := data.conversation_id
        content := data.content
        role := data.role
        sent_at := now
        created_at := now }
    (.ok row,
      { db with
        messages := db.messages ++ [row]
        next_message_id := db.next_message_id + 1 })

/-- Embeds `SympganDiseaseService.get`: first row of `sympgan_diseases` with the id. -/
def SympganDiseaseService.get (db : DB) (disease_id : Nat) : Option SympganDiseaseRow :=
  db.sympgan_diseases.find? (fun r => r.id == disease_id)

/-- Embeds `SympganDiseaseService.list`: count, then
`offset(skip).limit(limit).order_by(SympganDisease.id)`. -/
def SympganDiseaseService.list (db : DB) (skip limit : Nat) :
    Nat × List SympganDiseaseRow :=
  let total := db.sympgan_diseases.length
  let sorted := db.sympgan_diseases.insertionSort (fun a b => a.id ≤ b.id)
  (total, (sorted.drop skip).take limit)

/-- Embeds `SympganSymptomService.get`: first row of `sympgan_symptoms` with the id. -/
def SympganSymptomService.get (db : DB) (symptom_id : Nat) : Option SympganSymptomRow :=
  db.sympgan_symptoms.find? (fun r => r.id == symptom_id)

/-- Model of a SQLAlchemy `Result` buffer as returned by
`await session.execute(select(...))`: the matching rows plus a closed flag.
Per the SQLAlchemy contract, `Result.first()` "fetches the first row or None
... closes the result set and discards remaining rows", and any fetch on the
hard-closed result raises ResourceClosedError. -/
structure QueryResult (α : Type) where
  rows : List α
  closed : Bool
deriving DecidableEq, Repr

/-- Models `result.scalars().first()`: on an open result, the head of the
buffer, after which the result set is hard-closed and the remaining rows are
discarded; on an already-closed result the fetch raises
ResourceClosedError ("This result object is closed."), modelled as an
`Except` error carrying the raw exception text. -/
def QueryResult.scalarsFirst (r : QueryResult α) :
    Except String (Option α) × QueryResult α :=
  if r.closed then (.error "This result object is closed.", r)
  else (.ok r.rows.head?, { r with closed := true })

/-- Payload of `SympganDiseaseSymptomAssociationCreate`. -/
structure SympganDiseaseSymptomAssociationCreate where
  disease_id : Nat
  symptom_id : Nat
  source : Option String
deriving DecidableEq, Repr

/-- Embeds `SympganDiseaseSymptomAssociationService.create_association`: verify both
endpoints exist (error otherwise); execute the duplicate-pair query once into
a result buffer; if its first read is truthy, the code evaluates a SECOND
`result.scalars().first()` on the same already-consumed result (sqlite_crud.py
lines 1540-1543) — that fetch raises ResourceClosedError, which the generic
except-branch at lines 1556-1558 rolls back and wraps into
SQLiteServiceError ("Failed to create association: ...") — else it inserts a
fresh junction row.  Every raw exception escaping a read is wrapped the same
way, per the same handler. -/
def SympganDiseaseSymptomAssociationService.create_association (db : DB)
    (data : SympganDiseaseSymptomAssociationCreate) (now : Nat) :
    Except DBError (Option SympganDiseaseSymptomAssociationRow) × DB :=
  match SympganDiseaseService.get db data.disease_id with
  | none =>
    (.error (.serviceError
      ("Disease with ID " ++ toString data.disease_id ++ " not found")), db)
  | some _ =>
  match SympganSymptomService.get db data.symptom_id with
  | none =>
    (.error (.serviceError
      ("Symptom with ID " ++ toString data.symptom_id ++ " not found")), db)
  | some _ =>
    let result : QueryResult SympganDiseaseSymptomAssociationRow :=
      { rows := db.sympgan_disease_symptom_associations.filter
          (fun r => r.disease_id == data.disease_id && r.symptom_id == data.symptom_id)
        closed := false }
    match result.scalarsFirst with
    | (.error e, _) =>
      (.error (.serviceError ("Failed to create association: " ++ e)), db)
    | (.ok firstRow, result1) =>
      if firstRow.isSome then
        match result1.scalarsFirst with
        | (.error e, _) =>
          (.error (.serviceError ("Failed to create association: " ++ e)), db)
        | (.ok secondRow, _) => (.ok secondRow, db)
      else
        let row : SympganDiseaseSymptomAssociationRow :=
          { id := db.next_sympgan_assoc_id
            disease_id := data.disease_id
            symptom_id := data.symptom_id
            source := data.source
            created_at := now }
        (.ok (some row),
          { db with
            sympgan_disease_symptom_associations :=
              db.sympgan_disease_symptom_associations ++ [row]
            next_sympgan_assoc_id := db.next_sympgan_assoc_id + 1 })

/-- Embeds `SympganDiseaseSymptomAssociationService.get_symptoms_by_disease`:
`select(SympganSymptom).join(SympganDiseaseSymptomAssociation)
.where(disease_id == did)` with no ordering clause; the model realizes the
default order as junction insertion order. -/
def SympganDiseaseSymptomAssociationService.get_symptoms_by_disease
    (db : DB) (disease_id : Nat) : List SympganSymptomRow :=
  (db.sympgan_disease_symptom_associations.filter
      (fun r => r.disease_id == disease_id)).filterMap
    (fun r => db.sympgan_symptoms.find? (fun s => s.id == r.symptom_id))

/-- Embeds `SympganDiseaseSymptomAssociationService.get_diseases_by_symptom`:
the symmetric join, filtered on the symptom endpoint. -/
def SympganDiseaseSymptomAssociationService.get_diseases_by_symptom
    (db : DB) (symptom_id : Nat) : List SympganDiseaseRow :=
  (db.sympgan_disease_symptom_associations.filter
      (fun r => r.symptom_id == symptom_id)).filterMap
    (fun r => db.sympgan_diseases.find? (fun d => d.id == r.disease_id))

/-- State of `SQLiteClientWrapper`: whether `_ensure_tables_exist` has run to
completion (the source field `_initialized`; engine and session factory are
set together with it). -/
structure WrapperState where
  inited : Bool
deriving DecidableEq, Repr

/-- Abstract environment for the storage engine: whether engine creation plus
schema provisioning would fail. -/
structure WrapperEnv where
  initFails : Bool
deriving DecidableEq, Repr

/-- Embeds `SQLiteClientWrapper._ensure_tables_exist`: no-op once inited; otherwise
creates the engine, the session factory and the schema, raising whatever the
engine raises on failure. -/
def SQLiteClientWrapper.ensure_tables_exist (env : WrapperEnv) (s : WrapperState) :
    Except DBError Unit × WrapperState :=
  if s.inited then (.ok (), s)
  else if env.initFails then (.error (.connectionError "engine creation failed"), s)
  else (.ok (), { inited := true })

/-- Embeds `SQLiteClientWrapper.get_session`: runs `_ensure_tables_exist` when not yet
inited, wrapping any failure into `SQLiteConnectionError`; afterwards hands
out a session from the factory (pure construction, no storage round-trip). -/
def SQLiteClientWrapper.get_session (env : WrapperEnv) (s : WrapperState) :
    Except DBError Unit × WrapperState :=
  if s.inited then (.ok (), s)
  else
    match SQLiteClientWrapper.ensure_tables_exist env s with
    | (.error _, s1) =>
      (.error (.connectionError "Failed to initialize database"), s1)
    | (.ok _, s1) =>
      if s1.inited then (.ok (), s1)
      else (.error (.connectionError "Session factory not initialized"), s1)

/-- Models `await session.execute("SELECT 1")` at sqlite_db.py line 304: the
statement is passed as a plain string, and the SQLAlchemy 2.0 API — which the
models require through `DeclarativeBase`, `mapped_column` and
`async_sessionmaker` — no longer coerces strings to `text()`: it raises
ObjectNotExecutableError unconditionally, whatever the state of the engine. -/
def sessionExecuteRawString (stmt : String) : Except String Unit :=
  .error ("Not an executable object: " ++ stmt)

/-- Embeds `SQLiteClientWrapper.health_check`: inside one try block, ensure the
tables exist when needed, acquire a session and run the round-trip query —
which is the plain-string `execute` above and therefore always raises; any
exception anywhere is swallowed into `false`. -/
def SQLiteClientWrapper.health_check (env : WrapperEnv) (s : WrapperState) :
    Bool × WrapperState :=
  match (if s.inited then (.ok (), s) else SQLiteClientWrapper.ensure_tables_exist env s) with
  | (.error _, s1) => (false, s1)
  | (.ok _, s1) =>
    match SQLiteClientWrapper.get_session env s1 with
    | (.error _, s2) => (false, s2)
    | (.ok _, s2) =>
      match sessionExecuteRawString "SELECT 1" with
      | .error _ => (false, s2)
      | .ok _ => (true, s2)

/-! Concrete sample states used by the counterexamples and witnesses below. -/

/-- A database with every table empty and all id counters at 1. -/
def emptyDB : DB :=
  { conditions := []
    exclusion_methods := []
    treatment_plans := []
    condition_exclusion_methods := []
    condition_treatment_plans := []
    conversations := []
    messages := []
    sympgan_diseases := []
    sympgan_symptoms := []
    sympgan_disease_symptom_associations := []
    next_cem_id := 1
    next_ctp_id := 1
    next_message_id := 1
    next_sympgan_assoc_id := 1 }

def cond1 : ConditionRow := ⟨1, "flu", "desc", "sum", 0, 0⟩

def meth1 : ExclusionMethodRow := ⟨1, "m1", "d", none, 0, 0⟩

def meth2 : ExclusionMethodRow := ⟨2, "m2", "d", none, 0, 0⟩

def plan1 : TreatmentPlanRow := ⟨1, "p1", "d", none, none, none, none, 0, 0⟩

def plan2 : TreatmentPlanRow := ⟨2, "p2", "d", none, none, none, none, 0, 0⟩

def plan3 : TreatmentPlanRow := ⟨3, "p3", "d", none, none, none, none, 0, 0⟩

def dis1 : SympganDiseaseRow := ⟨1, "C0001", "d1", none, none, none, 0, 0⟩

def sym1 : SympganSymptomRow := ⟨1, "C0002", "s1", none, none, none, 0, 0⟩

/-- The disease-symptom junction row created by the first `create_association`
call on `dbC3pre` (id 10, provenance "sympgan", created at 5). -/
def assoc1 : SympganDiseaseSymptomAssociationRow := ⟨10, 1, 1, some "sympgan", 5⟩

/-- One condition, one method, one plan, and one association of each condition
family already present. -/
def dbC1 : DB :=
  { emptyDB with
    conditions := [cond1]
    exclusion_methods := [meth1]
    treatment_plans := [plan1]
    condition_exclusion_methods := [⟨1, 1, 1, 0⟩]
    condition_treatment_plans := [⟨1, 1, 1, false, 0, none, 0⟩]
    next_cem_id := 2
    next_ctp_id := 2 }

/-- Disease 1 and symptom 1 with no association yet; the next association id
is 10. -/
def dbC3pre : DB :=
  { emptyDB with
    sympgan_diseases := [dis1]
    sympgan_symptoms := [sym1]
    next_sympgan_assoc_id := 10 }

/-- State `dbC3pre` after the first `create_association (1, 1, "sympgan")` call:
exactly the junction row `assoc1` exists for the pair. -/
def dbC3 : DB :=
  { emptyDB with
    sympgan_diseases := [dis1]
    sympgan_symptoms := [sym1]
    sympgan_disease_symptom_associations := [assoc1]
    next_sympgan_assoc_id := 11 }

/-- Condition 1 associated first with method 2 and then with method 1: the
junction rows were inserted in the order (method 2, method 1). -/
def dbC4 : DB :=
  { emptyDB with
    conditions := [cond1]
    exclusion_methods := [meth1, meth2]
    condition_exclusion_methods := [⟨1, 1, 2, 0⟩, ⟨2, 1, 1, 0⟩]
    next_cem_id := 3 }

/-- Condition 1 with treatment-plan associations of priorities [3, 1, 2] for
plans 1, 2, 3 in insertion order — the priority-ordering scenario of the spec. -/
def dbC4p : DB :=
  { emptyDB with
    conditions := [cond1]
    treatment_plans := [plan1, plan2, plan3]
    condition_treatment_plans :=
      [⟨1, 1, 1, false, 3, none, 0⟩, ⟨2, 1, 2, false, 1, none, 0⟩, ⟨3, 1, 3, false, 2, none, 0⟩]
    next_ctp_id := 4 }

/-- One condition and one disease present, no methods, plans, symptoms or
conversations: every missing-endpoint branch is reachable. -/
def dbC2 : DB :=
  { emptyDB with
    conditions := [cond1]
    sympgan_diseases := [dis1] }

/-! Theorems. -/

/-- Length of one page of a sorted listing: sorting permutes the table, so the
page holds `min limit (total - skip)` rows. -/
theorem sortPage_length {α : Type} (r : α → α → Prop) [DecidableRel r]
    (l : List α) (skip limit : Nat) :
    (((l.insertionSort r).drop skip).take limit).length = min limit (l.length - skip) := by
  rw [List.length_take, List.length_drop, (l.perm_insertionSort r).length_eq]

/-- Claim C5: for the embedded entity listings (conditions and SympGAN
diseases), `list(skip, limit)` returns the pair of the total table count and
a page of exactly `min limit (total - skip)` rows — empty when
`skip ≥ total` — and the total is identical across repeated listings of the
same state. -/
theorem c5_pagination_invariant (db : DB) (skip limit skip2 limit2 : Nat) :
    (ConditionService.list db skip limit).1 = db.conditions.length ∧
    ((ConditionService.list db skip limit).2).length =
      min limit ((ConditionService.list db skip limit).1 - skip) ∧
    ((ConditionService.list db skip limit).1 ≤ skip →
      (ConditionService.list db skip limit).2 = []) ∧
    (ConditionService.list db skip limit).1 = (ConditionService.list db skip2 limit2).1 ∧
    (SympganDiseaseService.list db skip limit).1 = db.sympgan_diseases.length ∧
    ((SympganDiseaseService.list db skip limit).2).length =
      min limit ((SympganDiseaseService.list db skip limit).1 - skip) ∧
    ((SympganDiseaseService.list db skip limit).1 ≤ skip →
      (SympganDiseaseService.list db skip limit).2 = []) ∧
    (SympganDiseaseService.list db skip limit).1 = (SympganDiseaseService.list db skip2 limit2).1 := by
  have hc : ((ConditionService.list db skip limit).2).length =
      min limit (db.conditions.length - skip) :=
    sortPage_length _ _ skip limit
  have hd : ((SympganDiseaseService.list db skip limit).2).length =
      min limit (db.sympgan_diseases.length - skip) :=
    sortPage_length _ _ skip limit
  refine ⟨rfl, hc, ?_, rfl, rfl, hd, ?_, rfl⟩
  · intro hskip
    have hle : db.conditions.length ≤ skip := hskip
    have hz : ((ConditionService.list db skip limit).2).length = 0 := by
      rw [hc, Nat.sub_eq_zero_of_le hle, Nat.min_zero]
    exact List.length_eq_zero.mp hz
  · intro hskip
    have hle : db.sympgan_diseases.length ≤ skip := hskip
    have hz : ((SympganDiseaseService.list db skip limit).2).length = 0 := by
      rw [hd, Nat.sub_eq_zero_of_le hle, Nat.min_zero]
    exact List.length_eq_zero.mp hz

/-- Witness for C5 at a concrete input: listing `dbC4p` (3 rows) with
`skip = 5 ≥ 3` yields an empty page. -/
theorem c5_pagination_invariant_witness :
    (ConditionService.list dbC4p 5 10).1 ≤ 5 ∧ (ConditionService.list dbC4p 5 10).2 = [] :=
  ⟨by decide, ((c5_pagination_invariant dbC4p 5 10 0 1).2.2.1 (by decide))⟩

/-- Claim C8 (code evaluated at the failing input): `health_check` does
return a plain boolean with every error swallowed, but it is `false` for
EVERY wrapper state and engine environment — in particular over a healthy,
already-initialized engine — because its round-trip query is the plain
string "SELECT 1", which the SQLAlchemy 2.0 API the models require rejects
unconditionally; the probe can never report healthy. -/
theorem c8_health_check_never_true (env : WrapperEnv) (s : WrapperState) :
    (SQLiteClientWrapper.health_check env s).1 = false := by
  obtain ⟨i⟩ := s
  obtain ⟨f⟩ := env
  cases i <;> cases f <;> decide

/-- Claim C3 (code evaluated at the failing input): the first
`create_association (1, 1)` on `dbC3pre` succeeds and returns the new junction
row `assoc1`, producing `dbC3`; the second call on `dbC3` leaves the store
unchanged after rollback (still exactly one junction row) but fails with
SQLiteServiceError — the duplicate branch re-reads the already-closed query
result, raising ResourceClosedError, which the generic handler wraps —
instead of succeeding with the pre-existing row and the same id as the spec
promises. -/
theorem c3_duplicate_call_errors :
    SympganDiseaseSymptomAssociationService.create_association dbC3pre ⟨1, 1, some "sympgan"⟩ 5 =
      (.ok (some assoc1), dbC3) ∧
    SympganDiseaseSymptomAssociationService.create_association dbC3 ⟨1, 1, some "sympgan"⟩ 6 =
      (.error (.serviceError
        "Failed to create association: This result object is closed."), dbC3) := by
  constructor <;> decide

/-- Claim C9 (code evaluated at the failing input): a duplicate
`create_association` carrying a different provenance tag "manual" leaves the
stored row untouched — it keeps id 10, source "sympgan" and its created_at —
but the call does not return that unchanged stored row: it fails with the
wrapped SQLiteServiceError from the re-read of the closed result. -/
theorem c9_duplicate_frame_but_call_errors :
    SympganDiseaseSymptomAssociationService.create_association dbC3 ⟨1, 1, some "manual"⟩ 9 =
      (.error (.serviceError
        "Failed to create association: This result object is closed."), dbC3) ∧
    dbC3.sympgan_disease_symptom_associations = [assoc1] ∧
    assoc1.source = some "sympgan" ∧ assoc1.id = 10 ∧ assoc1.created_at = 5 := by
  refine ⟨by decide, by decide, by decide, by decide, by decide⟩

/-- Claim C1, counterexample: in `dbC1` the pair (condition 1, plan 1) already
has a junction row, yet `add_association` for the treatment-plan family
succeeds — no "already exists" failure — and a second junction row for the
same pair is created. -/
theorem c1_counterexample_ctp_duplicate_accepted :
    dbC1.condition_treatment_plans.countP
      (fun r => r.condition_id == 1 && r.treatment_plan_id == 1) = 1 ∧
    ConditionTreatmentPlanService.add_association dbC1 ⟨1, 1, false, 0, none⟩ 7 =
      (.ok ⟨2, 1, 1, false, 0, none, 7⟩,
        { dbC1 with
          condition_treatment_plans :=
            [⟨1, 1, 1, false, 0, none, 0⟩, ⟨2, 1, 1, false, 0, none, 7⟩]
          next_ctp_id := 3 }) ∧
    ((ConditionTreatmentPlanService.add_association dbC1 ⟨1, 1, false, 0, none⟩ 7).2).condition_treatment_plans.countP
      (fun r => r.condition_id == 1 && r.treatment_plan_id == 1) = 2 := by
  refine ⟨by decide, by decide, by decide⟩

/-- Claim C4, counterexample: condition 1 of `dbC4` was associated with
method 2 before method 1, and the exclusion-method listing — which issues no
ordering clause — returns the methods in junction insertion order [2, 1],
not in ascending identity order. -/
theorem c4_counterexample_cem_not_id_ordered :
    (ConditionExclusionMethodService.get_condition_exclusion_methods dbC4 1).map
      (fun m => m.id) = [2, 1] ∧
    ¬ List.Sorted (· ≤ ·)
      ((ConditionExclusionMethodService.get_condition_exclusion_methods dbC4 1).map
        (fun m => m.id)) := by
  constructor <;> decide

/-- Claim C1 as amended: only the condition-exclusion-method family rejects a
duplicate endpoint pair — with the "Association already exists" service error
and no write — while the condition-treatment-plan family performs no
duplicate check at all: with both endpoints present, `add_association`
succeeds and appends a junction row even when the pair already exists. -/
theorem c1_amended_duplicate_policy (db : DB)
    (dataE : ConditionExclusionMethodCreate) (dataT : ConditionTreatmentPlanCreate)
    (now : Nat) (c c2 : ConditionRow) (m : ExclusionMethodRow)
    (p : TreatmentPlanRow) (a : ConditionExclusionMethodRow)
    (hc : ConditionService.get db dataE.condition_id = some c)
    (hm : ExclusionMethodService.get db dataE.exclusion_method_id = some m)
    (hdup : db.condition_exclusion_methods.find?
      (fun r => r.condition_id == dataE.condition_id &&
                r.exclusion_method_id == dataE.exclusion_method_id) = some a)
    (hc2 : ConditionService.get db dataT.condition_id = some c2)
    (hp : TreatmentPlanService.get db dataT.treatment_plan_id = some p) :
    ConditionExclusionMethodService.add_association db dataE now =
      (.error (.serviceError "Association already exists"), db) ∧
    ConditionTreatmentPlanService.add_association db dataT now =
      (.ok ⟨db.next_ctp_id, dataT.condition_id, dataT.treatment_plan_id,
            dataT.is_primary, dataT.priority, dataT.notes, now⟩,
        { db with
          condition_treatment_plans := db.condition_treatment_plans ++
            [⟨db.next_ctp_id, dataT.condition_id, dataT.treatment_plan_id,
              dataT.is_primary, dataT.priority, dataT.notes, now⟩]
          next_ctp_id := db.next_ctp_id + 1 }) := by
  constructor
  · simp [ConditionExclusionMethodService.add_association, hc, hm, hdup]
  · simp [ConditionTreatmentPlanService.add_association, hc2, hp]

/-- Witness for the amended C1 on `dbC1`: the duplicate exclusion-method pair
is rejected, the duplicate treatment-plan pair is inserted again. -/
theorem c1_amended_duplicate_policy_witness :
    ConditionExclusionMethodService.add_association dbC1 ⟨1, 1⟩ 7 =
      (.error (.serviceError "Association already exists"), dbC1) ∧
    ConditionTreatmentPlanService.add_association dbC1 ⟨1, 1, false, 0, none⟩ 7 =
      (.ok ⟨dbC1.next_ctp_id, 1, 1, false, 0, none, 7⟩,
        { dbC1 with
          condition_treatment_plans := dbC1.condition_treatment_plans ++
            [⟨dbC1.next_ctp_id, 1, 1, false, 0, none, 7⟩]
          next_ctp_id := dbC1.next_ctp_id + 1 }) :=
  c1_amended_duplicate_policy dbC1 ⟨1, 1⟩ ⟨1, 1, false, 0, none⟩ 7
    cond1 cond1 meth1 plan1 ⟨1, 1, 1, 0⟩
    (by decide) (by decide) (by decide) (by decide) (by decide)

/-- Claim C2: each write operation whose precondition is the existence of a
referenced entity — association creation in all three families with either
endpoint absent, and message creation with the conversation absent — fails
with the "... not found" service error and returns the store unchanged. -/
theorem c2_missing_endpoint_rejection (db : DB)
    (dataA dataA2 : SympganDiseaseSymptomAssociationCreate) (dataM : MessageCreate)
    (dataE dataE2 : ConditionExclusionMethodCreate)
    (dataT dataT2 : ConditionTreatmentPlanCreate)
    (d : SympganDiseaseRow) (c c2 : ConditionRow) (now : Nat)
    (h1 : SympganDiseaseService.get db dataA.disease_id = none)
    (h2d : SympganDiseaseService.get db dataA2.disease_id = some d)
    (h2s : SympganSymptomService.get db dataA2.symptom_id = none)
    (h3 : ConversationService.get db dataM.conversation_id = none)
    (h4 : ConditionService.get db dataE.condition_id = none)
    (h5c : ConditionService.get db dataE2.condition_id = some c)
    (h5m : ExclusionMethodService.get db dataE2.exclusion_method_id = none)
    (h6 : ConditionService.get db dataT2.condition_id = none)
    (h7c : ConditionService.get db dataT.condition_id = some c2)
    (h7p : TreatmentPlanService.get db dataT.treatment_plan_id = none) :
    SympganDiseaseSymptomAssociationService.create_association db dataA now =
      (.error (.serviceError
        ("Disease with ID " ++ toString dataA.disease_id ++ " not found")), db) ∧
    SympganDiseaseSymptomAssociationService.create_association db dataA2 now =
      (.error (.serviceError
        ("Symptom with ID " ++ toString dataA2.symptom_id ++ " not found")), db) ∧
    MessageService.create db dataM now =
      (.error (.serviceError
        ("Conversation with ID " ++ toString dataM.conversation_id ++ " not found")), db) ∧
    ConditionExclusionMethodService.add_association db dataE now =
      (.error (.serviceError
        ("Condition with ID " ++ toString dataE.condition_id ++ " not found")), db) ∧
    ConditionExclusionMethodService.add_association db dataE2 now =
      (.error (.serviceError
        ("Exclusion method with ID " ++ toString dataE2.exclusion_method_id ++ " not found")), db) ∧
    ConditionTreatmentPlanService.add_association db dataT2 now =
      (.error (.serviceError
        ("Condition with ID " ++ toString dataT2.condition_id ++ " not found")), db) ∧
    ConditionTreatmentPlanService.add_association db dataT now =
      (.error (.serviceError
        ("Treatment plan with ID " ++ toString dataT.treatment_plan_id ++ " not found")), db) := by
  refine ⟨?_, ?_, ?_, ?_, ?_, ?_, ?_⟩
  · simp [SympganDiseaseSymptomAssociationService.create_association, h1]
  · simp [SympganDiseaseSymptomAssociationService.create_association, h2d, h2s]
  · simp [MessageService.create, h3]
  · simp [ConditionExclusionMethodService.add_association, h4]
  · simp [ConditionExclusionMethodService.add_association, h5c, h5m]
  · simp [ConditionTreatmentPlanService.add_association, h6]
  · simp [ConditionTreatmentPlanService.add_association, h7c, h7p]

/-- Witness for C2 on `dbC2`: a missing disease endpoint and a missing
conversation are both rejected with the corresponding error and no write. -/
theorem c2_missing_endpoint_rejection_witness :
    SympganDiseaseSymptomAssociationService.create_association dbC2 ⟨999, 1, none⟩ 0 =
      (.error (.serviceError
        ("Disease with ID " ++ toString (999 : Nat) ++ " not found")), dbC2) ∧
    MessageService.create dbC2 ⟨1, "hi", none⟩ 0 =
      (.error (.serviceError
        ("Conversation with ID " ++ toString (1 : Nat) ++ " not found")), dbC2) := by
  have h := c2_missing_endpoint_rejection dbC2 ⟨999, 1, none⟩ ⟨1, 999, none⟩
    ⟨1, "hi", none⟩ ⟨999, 1⟩ ⟨1, 1⟩ ⟨1, 1, false, 0, none⟩ ⟨999, 1, false, 0, none⟩
    dis1 cond1 cond1 0
    (by decide) (by decide) (by decide) (by decide) (by decide)
    (by decide) (by decide) (by decide) (by decide) (by decide)
  exact ⟨h.1, h.2.2.1⟩

/-- Claim C4 as amended: the treatment-plan listing returns the joined plans
of the junction rows sorted by descending priority (so priorities [3, 1, 2]
for one condition yield the plans of priorities [3, 2, 1], here plan ids
[1, 3, 2]); the exclusion-method listing issues no ordering clause and
returns the joined methods in the storage-engine default order — junction
insertion order in this model — not necessarily ascending identity. -/
theorem c4_amended_listing_order (db : DB) (cid : Nat) :
    (∃ rs : List ConditionTreatmentPlanRow,
      rs.Perm (db.condition_treatment_plans.filter (fun r => r.condition_id == cid)) ∧
      List.Sorted ctpPriorityGE rs ∧
      ConditionTreatmentPlanService.get_condition_treatment_plans db cid =
        rs.filterMap (fun r => db.treatment_plans.find? (fun p => p.id == r.treatment_plan_id))) ∧
    dbC4p.condition_treatment_plans.map (fun r => r.priority) = [3, 1, 2] ∧
    (ConditionTreatmentPlanService.get_condition_treatment_plans dbC4p 1).map
      (fun p => p.id) = [1, 3, 2] ∧
    (ConditionExclusionMethodService.get_condition_exclusion_methods dbC4 1).map
      (fun m => m.id) = [2, 1] := by
  refine ⟨⟨(db.condition_treatment_plans.filter
      (fun r : ConditionTreatmentPlanRow => r.condition_id == cid)).insertionSort ctpPriorityGE,
    List.perm_insertionSort _ _, List.sorted_insertionSort _ _, rfl⟩,
    by decide, by decide, by decide⟩

/-- Claim C6: deleting an existing condition returns true, leaves no junction
row of either family referencing it, and leaves the `exclusion_methods` and
`treatment_plans` tables — hence every previously associated method and plan
row — untouched. -/
theorem c6_cascade_delete (db : DB) (cid : Nat) (c : ConditionRow)
    (hc : ConditionService.get db cid = some c) :
    (ConditionService.delete db cid).1 = .ok true ∧
    (∀ r ∈ ((ConditionService.delete db cid).2).condition_exclusion_methods,
      r.condition_id ≠ cid) ∧
    (∀ r ∈ ((ConditionService.delete db cid).2).condition_treatment_plans,
      r.condition_id ≠ cid) ∧
    ((ConditionService.delete db cid).2).exclusion_methods = db.exclusion_methods ∧
    ((ConditionService.delete db cid).2).treatment_plans = db.treatment_plans := by
  have hres : ConditionService.delete db cid =
      (.ok true,
        { db with
          conditions := db.conditions.filter fun r => r.id != cid
          condition_exclusion_methods :=
            db.condition_exclusion_methods.filter fun r => r.condition_id != cid
          condition_treatment_plans :=
            db.condition_treatment_plans.filter fun r => r.condition_id != cid }) := by
    simp [ConditionService.delete, hc]
  rw [hres]
  refine ⟨rfl, ?_, ?_, rfl, rfl⟩
  · intro r hr
    simpa using (List.mem_filter.mp hr).2
  · intro r hr
    simpa using (List.mem_filter.mp hr).2

/-- Witness for C6 on `dbC1`: deleting condition 1 succeeds, empties both
junction tables of its rows, and keeps the method and plan tables intact. -/
theorem c6_cascade_delete_witness :
    (ConditionService.delete dbC1 1).1 = .ok true ∧
    ((ConditionService.delete dbC1 1).2).exclusion_methods = dbC1.exclusion_methods ∧
    ((ConditionService.delete dbC1 1).2).treatment_plans = dbC1.treatment_plans := by
  have h := c6_cascade_delete dbC1 1 cond1 (by decide)
  exact ⟨h.1, h.2.2.2.1, h.2.2.2.2⟩

/-- Field behaviour of `applyConditionUpdate`: supplied fields replace the
old values, unsupplied payload fields as well as id and created_at are kept. -/
theorem applyConditionUpdate_fields (c : ConditionRow) (u : ConditionUpdate) (now : Nat) :
    (applyConditionUpdate c u now).name = u.name.getD c.name ∧
    (applyConditionUpdate c u now).full_description =
      u.full_description.getD c.full_description ∧
    (applyConditionUpdate c u now).summary = u.summary.getD c.summary ∧
    (applyConditionUpdate c u now).id = c.id ∧
    (applyConditionUpdate c u now).created_at = c.created_at := by
  unfold applyConditionUpdate
  split <;> exact ⟨rfl, rfl, rfl, rfl, rfl⟩

/-- Claim C7: partial update replaces exactly the supplied fields.  For the
condition repository: with an existing id the result carries the supplied
values, keeps every unsupplied payload field, the id and created_at, keeps
every other condition row, and leaves both junction tables and the method and
plan tables untouched; with a missing id it returns the absence signal
without error and without modifying the store.  The same holds for the
treatment-plan association update (its mutable payload being is_primary,
priority and notes, with both endpoint references, id and created_at kept). -/
theorem c7_partial_update (db : DB) (cid aid : Nat) (u : ConditionUpdate)
    (v : ConditionTreatmentPlanUpdate) (now : Nat) :
    (∀ c, ConditionService.get db cid = some c →
      ∃ c1 db1, ConditionService.update db cid u now = (.ok (some c1), db1) ∧
        c1.name = u.name.getD c.name ∧
        c1.full_description = u.full_description.getD c.full_description ∧
        c1.summary = u.summary.getD c.summary ∧
        c1.id = c.id ∧ c1.created_at = c.created_at ∧
        (∀ r ∈ db.conditions, r.id ≠ cid → r ∈ db1.conditions) ∧
        db1.condition_exclusion_methods = db.condition_exclusion_methods ∧
        db1.condition_treatment_plans = db.condition_treatment_plans ∧
        db1.exclusion_methods = db.exclusion_methods ∧
        db1.treatment_plans = db.treatment_plans) ∧
    (ConditionService.get db cid = none →
      ConditionService.update db cid u now = (.ok none, db)) ∧
    (∀ a, db.condition_treatment_plans.find? (fun r => r.id == aid) = some a →
      ∃ a1 db1,
        ConditionTreatmentPlanService.update_association db aid v = (.ok (some a1), db1) ∧
        a1.is_primary = v.is_primary.getD a.is_primary ∧
        a1.priority = v.priority.getD a.priority ∧
        a1.notes = v.notes.getD a.notes ∧
        a1.id = a.id ∧ a1.condition_id = a.condition_id ∧
        a1.treatment_plan_id = a.treatment_plan_id ∧ a1.created_at = a.created_at ∧
        (∀ r ∈ db.condition_treatment_plans, r.id ≠ aid →
          r ∈ db1.condition_treatment_plans) ∧
        db1.conditions = db.conditions ∧
        db1.treatment_plans = db.treatment_plans) ∧
    (db.condition_treatment_plans.find? (fun r => r.id == aid) = none →
      ConditionTreatmentPlanService.update_association db aid v = (.ok none, db)) := by
  refine ⟨?_, ?_, ?_, ?_⟩
  · intro c hc
    have hupd : ConditionService.update db cid u now =
        (.ok (some (applyConditionUpdate c u now)),
          { db with
            conditions := db.conditions.map fun r =>
              if r.id == cid then applyConditionUpdate r u now else r }) := by
      simp [ConditionService.update, hc]
    refine ⟨applyConditionUpdate c u now, _, hupd,
      (applyConditionUpdate_fields c u now).1,
      (applyConditionUpdate_fields c u now).2.1,
      (applyConditionUpdate_fields c u now).2.2.1,
      (applyConditionUpdate_fields c u now).2.2.2.1,
      (applyConditionUpdate_fields c u now).2.2.2.2,
      ?_, rfl, rfl, rfl, rfl⟩
    intro r hr hne
    have hbeq : (r.id == cid) = false := by simpa using hne
    exact List.mem_map.mpr ⟨r, hr, by simp [hbeq]⟩
  · intro hc
    simp [ConditionService.update, hc]
  · intro a ha
    have hupd : ConditionTreatmentPlanService.update_association db aid v =
        (.ok (some (applyCtpUpdate a v)),
          { db with
            condition_treatment_plans := db.condition_treatment_plans.map fun r =>
              if r.id == aid then applyCtpUpdate r v else r }) := by
      simp [ConditionTreatmentPlanService.update_association, ha]
    refine ⟨applyCtpUpdate a v, _, hupd,
      rfl, rfl, rfl, rfl, rfl, rfl, rfl, ?_, rfl, rfl⟩
    intro r hr hne
    have hbeq : (r.id == aid) = false := by simpa using hne
    exact List.mem_map.mpr ⟨r, hr, by simp [hbeq]⟩
  · intro ha
    simp [ConditionTreatmentPlanService.update_association, ha]

/-- Witness for C7 on `dbC1`: updating the summary of condition 1 only changes the
summary and keeps name and description; updating a missing condition id and a
missing association id return the absence signal with the store unchanged. -/
theorem c7_partial_update_witness :
    (∃ c1 db1,
      ConditionService.update dbC1 1 ⟨none, none, some "s2"⟩ 4 = (.ok (some c1), db1) ∧
      c1.name = cond1.name ∧ c1.full_description = cond1.full_description ∧
      c1.summary = "s2" ∧ c1.id = cond1.id ∧ c1.created_at = cond1.created_at) ∧
    ConditionService.update dbC1 42 ⟨none, none, some "s2"⟩ 4 = (.ok none, dbC1) ∧
    ConditionTreatmentPlanService.update_association dbC1 42 ⟨none, none, none⟩ =
      (.ok none, dbC1) := by
  have h := c7_partial_update dbC1 1 42 ⟨none, none, some "s2"⟩ ⟨none, none, none⟩ 4
  obtain ⟨c1, db1, heq, hn, hf, hs, hid, hcr, -⟩ := h.1 cond1 (by decide)
  have h2 := c7_partial_update dbC1 42 42 ⟨none, none, some "s2"⟩ ⟨none, none, none⟩ 4
  exact ⟨⟨c1, db1, heq, hn, hf, hs, hid, hcr⟩,
    h2.2.1 (by decide), h2.2.2.2 (by decide)⟩

/-- Claim C10: under referential integrity of the junction tables, a left
endpoint id matching no stored root entity yields an empty list from each of
the four association listings — no error and no absence signal at the
service layer. -/
theorem c10_missing_left_lists_empty (db : DB) (cid did sid : Nat)
    (hic : ∀ r ∈ db.condition_exclusion_methods,
      ∃ c ∈ db.conditions, c.id = r.condition_id)
    (hit : ∀ r ∈ db.condition_treatment_plans,
      ∃ c ∈ db.conditions, c.id = r.condition_id)
    (hia : ∀ r ∈ db.sympgan_disease_symptom_associations,
      (∃ d ∈ db.sympgan_diseases, d.id = r.disease_id) ∧
      (∃ s ∈ db.sympgan_symptoms, s.id = r.symptom_id))
    (hc : ConditionService.get db cid = none)
    (hd : SympganDiseaseService.get db did = none)
    (hs : SympganSymptomService.get db sid = none) :
    ConditionExclusionMethodService.get_condition_exclusion_methods db cid = [] ∧
    ConditionTreatmentPlanService.get_condition_treatment_plans db cid = [] ∧
    SympganDiseaseSymptomAssociationService.get_symptoms_by_disease db did = [] ∧
    SympganDiseaseSymptomAssociationService.get_diseases_by_symptom db sid = [] := by
  have hcnone : ∀ x ∈ db.conditions, ¬(x.id == cid) = true := List.find?_eq_none.mp hc
  have hdnone : ∀ x ∈ db.sympgan_diseases, ¬(x.id == did) = true := List.find?_eq_none.mp hd
  have hsnone : ∀ x ∈ db.sympgan_symptoms, ¬(x.id == sid) = true := List.find?_eq_none.mp hs
  have h1 : db.condition_exclusion_methods.filter
      (fun r => r.condition_id == cid) = [] := by
    rw [List.filter_eq_nil_iff]
    intro r hr hmatch
    obtain ⟨c, hcmem, hcid⟩ := hic r hr
    have hrc : r.condition_id = cid := by simpa using hmatch
    exact hcnone c hcmem (by simp [hcid, hrc])
  have h2 : db.condition_treatment_plans.filter
      (fun r => r.condition_id == cid) = [] := by
    rw [List.filter_eq_nil_iff]
    intro r hr hmatch
    obtain ⟨c, hcmem, hcid⟩ := hit r hr
    have hrc : r.condition_id = cid := by simpa using hmatch
    exact hcnone c hcmem (by simp [hcid, hrc])
  have h3 : db.sympgan_disease_symptom_associations.filter
      (fun r => r.disease_id == did) = [] := by
    rw [List.filter_eq_nil_iff]
    intro r hr hmatch
    obtain ⟨d, hdmem, hdid⟩ := (hia r hr).1
    have hrd : r.disease_id = did := by simpa using hmatch
    exact hdnone d hdmem (by simp [hdid, hrd])
  have h4 : db.sympgan_disease_symptom_associations.filter
      (fun r => r.symptom_id == sid) = [] := by
    rw [List.filter_eq_nil_iff]
    intro r hr hmatch
    obtain ⟨s, hsmem, hsid⟩ := (hia r hr).2
    have hrs : r.symptom_id = sid := by simpa using hmatch
    exact hsnone s hsmem (by simp [hsid, hrs])
  refine ⟨?_, ?_, ?_, ?_⟩
  · simp [ConditionExclusionMethodService.get_condition_exclusion_methods, h1]
  · simp [ConditionTreatmentPlanService.get_condition_treatment_plans, h2]
  · simp [SympganDiseaseSymptomAssociationService.get_symptoms_by_disease, h3]
  · simp [SympganDiseaseSymptomAssociationService.get_diseases_by_symptom, h4]

/-- Witness for C10: listing by ids 5, 6 and 7 on `dbC4p` — whose stored
condition has id 1 and whose taxonomy tables are empty — yields empty lists
from all four listings. -/
theorem c10_missing_left_lists_empty_witness :
    ConditionExclusionMethodService.get_condition_exclusion_methods dbC4p 5 = [] ∧
    ConditionTreatmentPlanService.get_condition_treatment_plans dbC4p 5 = [] ∧
    SympganDiseaseSymptomAssociationService.get_symptoms_by_disease dbC4p 6 = [] ∧
    SympganDiseaseSymptomAssociationService.get_diseases_by_symptom dbC4p 7 = [] :=
  c10_missing_left_lists_empty dbC4p 5 6 7
    (by decide) (by decide) (by decide) (by decide) (by decide) (by decide)

end MediBridge
